import Mathlib

/-
Verification of the structured-event observability core of a database-client
library (trace emitters, UTF-8 payload truncation, test subscriber hub,
level merge, connection checkout event sequence).

Rust strings are modelled as lists of byte values; documents, object ids and
errors carry their rendered forms abstractly where the rendering code lives
outside the verified sources.
-/

/-- A Rust `String` viewed as its UTF-8 byte sequence. -/

abbrev ByteStr := List Nat

/-- Embedding of `str::is_char_boundary` from the Rust standard library:
index 0 is always a boundary; an index equal to the length is a boundary;
otherwise the byte at the index must not be a UTF-8 continuation byte
(in Rust: `(b as i8) >= -0x40`, i.e. `b < 0x80 or 0xC0 <= b`). -/

def is_char_boundary (s : ByteStr) (index : Nat) : Bool :=
  if index = 0 then true
  else
    match s.get? index with
    | none => decide (index = s.length)
    | some b => decide (b < 0x80) || decide (0xC0 ≤ b)

/-- Embedding of the boundary-search loop inside `truncate_on_char_boundary`:
`while !s.is_char_boundary(truncate_index) { truncate_index += 1; }`.
`fuel` bounds the number of loop-condition checks; the caller passes enough
fuel to reach `s.length`, where `is_char_boundary` is always true, so the
fuel bound is never the reason the loop stops (proved below). -/

def ceil_loop (s : ByteStr) : Nat → Nat → Nat
  | 0, i => i
  | fuel + 1, i => if is_char_boundary s i then i else ceil_loop s fuel (i + 1)

/-- Embedding of `truncate_on_char_boundary` from `trace.rs`: when
`s.len() > new_len`, find the first index `>= new_len` that is a character
boundary and truncate there (`String::truncate` keeps the first
`truncate_index` bytes); otherwise leave `s` unchanged. -/

def truncate_on_char_boundary (s : ByteStr) (new_len : Nat) : ByteStr :=
  if s.length > new_len then
    s.take (ceil_loop s (s.length - new_len + 1) new_len)
  else s

/-- A byte in the range `0x80..0xBF`, i.e. a UTF-8 continuation byte. -/

def is_cont (b : Nat) : Bool := decide (0x80 ≤ b) && decide (b < 0xC0)

/-- Exact well-formedness of a single encoded UTF-8 scalar value
(RFC 3629 ranges, excluding overlong forms and surrogates). -/

def isUtf8Char : List Nat → Bool
  | [b] => decide (b < 0x80)
  | [b1, b2] => decide (0xC2 ≤ b1) && decide (b1 ≤ 0xDF) && is_cont b2
  | [b1, b2, b3] =>
      ((decide (b1 = 0xE0) && decide (0xA0 ≤ b2) && decide (b2 ≤ 0xBF)) ||
       (decide (0xE1 ≤ b1) && decide (b1 ≤ 0xEC) && is_cont b2) ||
       (decide (b1 = 0xED) && decide (0x80 ≤ b2) && decide (b2 ≤ 0x9F)) ||
       (decide (0xEE ≤ b1) && decide (b1 ≤ 0xEF) && is_cont b2)) && is_cont b3
  | [b1, b2, b3, b4] =>
      ((decide (b1 = 0xF0) && decide (0x90 ≤ b2) && decide (b2 ≤ 0xBF)) ||
       (decide (0xF1 ≤ b1) && decide (b1 ≤ 0xF3) && is_cont b2) ||
       (decide (b1 = 0xF4) && decide (0x80 ≤ b2) && decide (b2 ≤ 0x8F))) &&
      is_cont b3 && is_cont b4
  | _ => false

/-- A byte string is valid UTF-8 when it is a concatenation of well-formed
encoded scalar values. -/

inductive Utf8Valid : ByteStr → Prop
  | nil : Utf8Valid []
  | cons (c : List Nat) (rest : ByteStr) (hc : isUtf8Char c = true)
      (hrest : Utf8Valid rest) : Utf8Valid (c ++ rest)

/-- The UTF-8 byte encoding of one thinking-face emoji (U+1F914). -/

def oneEmoji : ByteStr := [0xF0, 0x9F, 0xA4, 0x94]

/-- The UTF-8 byte encoding of the 8-byte test string of two emoji. -/

def twoEmoji : ByteStr := oneEmoji ++ oneEmoji

/-- The five verbosity levels shared by the tracing and log facades. -/

inductive Level where
  | error
  | warn
  | info
  | debug
  | trace
  deriving DecidableEq

/-- Discriminant of the tracing-core LevelInner enum
(TRACE = 0, DEBUG = 1, INFO = 2, WARN = 3, ERROR = 4). -/

def Level.inner : Level → Nat
  | .trace => 0
  | .debug => 1
  | .info => 2
  | .warn => 3
  | .error => 4

/-- The tracing crate orders Level by reversing the comparison of the inner
discriminants, making ERROR the least and TRACE the greatest level;
`Level.le a b` embeds the Rust comparison `a <= b`. -/

def Level.le (a b : Level) : Bool := decide (b.inner ≤ a.inner)

/-- Rust `Ord::max` on tracing levels: returns the second argument when the
first compares less-or-equal under the tracing order. -/

def Level.ord_max (a b : Level) : Level := if Level.le a b then b else a

/-- Verbosity rank as stated by the specification:
Error < Warn < Info < Debug < Trace, Trace most verbose. -/

def Level.verbosity : Level → Nat
  | .error => 0
  | .warn => 1
  | .info => 2
  | .debug => 3
  | .trace => 4

/-- The per-target level map of the test subscriber hub, as an association
list with the lookup semantics of `HashMap::get`. -/

def lookupLevel : List (String × Level) → String → Option Level
  | [], _ => none
  | (k, v) :: rest, t => if k = t then some v else lookupLevel rest t

/-- Embedding of `TracingHandler::enabled` from `test/util/trace.rs`: look
the metadata target up in the level map; an absent target disables the
event, a present one enables it iff the event level `<=` the configured
level under the tracing order. -/

def TracingHandler.enabled (levels : List (String × Level)) (target : String)
    (eventLevel : Level) : Bool :=
  match lookupLevel levels target with
  | some level => Level.le eventLevel level
  | none => false

/-- Converts a Lean string literal to its UTF-8 byte sequence, used for the
fixed human-readable strings in event fields. -/

def strBytes (s : String) : ByteStr := s.toUTF8.toList.map (fun b => b.toNat)

/-- A BSON object identifier; its 24-character lowercase hex rendering
(`ObjectId::to_hex`, defined in the bson crate) is carried abstractly. -/

structure ObjectId where
  hex : ByteStr
  deriving DecidableEq

/-- Embedding of `impl TracingRepresentation for bson::oid::ObjectId`: `self.to_hex()`. -/

def ObjectId.tracing_representation (o : ObjectId) : ByteStr := o.hex

/-- A BSON document; its canonical extended-JSON rendering (the bson crate
function `into_canonical_extjson().to_string()`) is carried abstractly as
its UTF-8 bytes. -/

structure Document where
  extjson : ByteStr
  deriving DecidableEq

/-- Embedding of `impl TracingRepresentation for bson::Document`: the canonical
extended-JSON rendering. -/

def Document.tracing_representation (d : Document) : ByteStr := d.extjson

/-- The error-kind tag inspected by the command-failed emitter. The full
enum lives in the error module outside the verified sources; only the
Redacted tag is distinguished by the emitter, per the match in
`handle_command_failed_event`. -/

inductive ErrorKind where
  | redacted
  | authentication
  | bsonDeserialization
  | bsonSerialization
  | command
  | internal
  | invalidArgument
  | invalidResponse
  | io
  | connectionPoolCleared
  | serverSelection
  | transaction
  | write
  deriving DecidableEq

/-- A driver error; its Display rendering (`to_string`) is carried
abstractly. -/

structure Error where
  kind : ErrorKind
  display : ByteStr
  deriving DecidableEq

/-- Embedding of `impl TracingRepresentation for Error`: `self.to_string()`. -/

def Error.tracing_representation (e : Error) : ByteStr := e.display

/-- A server address: `host()` is always present, `port()` is absent for
UNIX domain sockets. -/

structure ServerAddress where
  host : ByteStr
  port : Option Nat
  deriving DecidableEq

/-- The connection data carried by command events: driver connection id,
optional server-side connection id, and the server address. -/

structure ConnectionInfo where
  id : Int
  server_id : Option Int
  address : ServerAddress
  deriving DecidableEq

/-- A typed field value of a structured event. The emitters produce i64,
u64, u128, bool and string values; the test visitor additionally supports
f64 and i128, which no emitter produces. -/

inductive FieldValue where
  | i64 (v : Int)
  | u64 (v : Nat)
  | i128 (v : Int)
  | u128 (v : Nat)
  | bool (v : Bool)
  | str (v : ByteStr)
  deriving DecidableEq

/-- A structured event record: target, level, optional message and the
ordered field list produced at the emission site. The message literal of
the `tracing::event!` invocation is carried separately from the named
fields, mirroring the data model of the specification; SDAM events carry no
message. -/

structure TracingEventRecord where
  target : String
  level : Level
  message : Option String
  fields : List (String × FieldValue)
  deriving DecidableEq

/-- An optional field: the tracing crate records nothing for a `None` value
and the inner value for a `Some`. -/

def optField (name : String) (v : Option FieldValue) :
    List (String × FieldValue) :=
  match v with
  | some x => [(name, x)]
  | none => []

/-- The `tracing_debug!` macro adds the client id field only under
`cfg(test)`; the build flavor is threaded as the `testBuild` flag. A `None`
client id is omitted like any optional field. -/

def clientIdFields (testBuild : Bool) (client_id : Option ByteStr) :
    List (String × FieldValue) :=
  if testBuild then optField "client_id" (client_id.map FieldValue.str) else []

/-- Association-list lookup over the field list of a record, with the first
binding winning, used to state field presence and absence. -/

def lookupField : List (String × FieldValue) → String → Option FieldValue
  | [], _ => none
  | (k, v) :: rest, t => if k = t then some v else lookupField rest t

def COMMAND_TRACING_EVENT_TARGET : String := "mongodb::command"

def CONNECTION_TRACING_EVENT_TARGET : String := "mongodb::connection"

def SDAM_TRACING_EVENT_TARGET : String := "mongodb::sdam"

def DEFAULT_MAX_DOCUMENT_LENGTH_BYTES : Nat := 1000

/-- Embedding of `serialize_command_or_reply` from `trace.rs`: canonical extended JSON,
truncated on a character boundary at the configured budget. -/

def serialize_command_or_reply (doc : Document) (max_length_bytes : Nat) :
    ByteStr :=
  truncate_on_char_boundary doc.tracing_representation max_length_bytes

/-- The command tracing emitter: the configured maximum document length and
the optional client id. -/

structure CommandTracingEventEmitter where
  max_document_length_bytes : Nat
  client_id : Option ByteStr
  deriving DecidableEq

/-- Embedding of `CommandTracingEventEmitter::new`: a missing length option falls back
to the 1000-byte default. -/

def CommandTracingEventEmitter.new (max_document_length_bytes : Option Nat)
    (client_id : Option ByteStr) : CommandTracingEventEmitter :=
  { max_document_length_bytes :=
      max_document_length_bytes.getD DEFAULT_MAX_DOCUMENT_LENGTH_BYTES
    client_id := client_id }

structure CommandStartedEvent where
  command : Document
  db : ByteStr
  command_name : ByteStr
  request_id : Int
  connection : ConnectionInfo
  service_id : Option ObjectId
  deriving DecidableEq

structure CommandSucceededEvent where
  reply : Document
  command_name : ByteStr
  request_id : Int
  connection : ConnectionInfo
  service_id : Option ObjectId
  duration_millis : Nat
  deriving DecidableEq

structure CommandFailedEvent where
  failure : Error
  command_name : ByteStr
  request_id : Int
  connection : ConnectionInfo
  service_id : Option ObjectId
  duration_millis : Nat
  deriving DecidableEq

/-- Embedding of `handle_command_started_event`: the Command started record with its
field list in emission order. `event.duration.as_millis()` does not occur
here; string fields carry their UTF-8 bytes. -/

def handle_command_started_event (testBuild : Bool)
    (self : CommandTracingEventEmitter) (event : CommandStartedEvent) :
    TracingEventRecord :=
  { target := COMMAND_TRACING_EVENT_TARGET
    level := Level.debug
    message := some "Command started"
    fields :=
      clientIdFields testBuild self.client_id ++
      [("command", FieldValue.str
          (serialize_command_or_reply event.command
            self.max_document_length_bytes)),
       ("database_name", FieldValue.str event.db),
       ("command_name", FieldValue.str event.command_name),
       ("request_id", FieldValue.i64 event.request_id),
       ("driver_connection_id", FieldValue.i64 event.connection.id)] ++
      optField "server_connection_id"
        (event.connection.server_id.map FieldValue.i64) ++
      [("server_host", FieldValue.str event.connection.address.host)] ++
      optField "server_port"
        (event.connection.address.port.map FieldValue.u64) ++
      optField "service_id"
        (event.service_id.map fun i =>
          FieldValue.str i.tracing_representation) }

/-- Embedding of `handle_command_succeeded_event`: the Command succeeded record. The
duration field is `event.duration.as_millis()`, a `u128` value recorded
through `record_u128`. -/

def handle_command_succeeded_event (testBuild : Bool)
    (self : CommandTracingEventEmitter) (event : CommandSucceededEvent) :
    TracingEventRecord :=
  { target := COMMAND_TRACING_EVENT_TARGET
    level := Level.debug
    message := some "Command succeeded"
    fields :=
      clientIdFields testBuild self.client_id ++
      [("reply", FieldValue.str
          (serialize_command_or_reply event.reply
            self.max_document_length_bytes)),
       ("command_name", FieldValue.str event.command_name),
       ("request_id", FieldValue.i64 event.request_id),
       ("driver_connection_id", FieldValue.i64 event.connection.id)] ++
      optField "server_connection_id"
        (event.connection.server_id.map FieldValue.i64) ++
      [("server_host", FieldValue.str event.connection.address.host)] ++
      optField "server_port"
        (event.connection.address.port.map FieldValue.u64) ++
      optField "service_id"
        (event.service_id.map fun i =>
          FieldValue.str i.tracing_representation) ++
      [("duration_ms", FieldValue.u128 event.duration_millis)] }

/-- Embedding of `handle_command_failed_event`: the failure field is `None` exactly when
the error kind is Redacted, and otherwise the Display rendering of the
error; a `None` field is omitted from the record. -/

def handle_command_failed_event (testBuild : Bool)
    (self : CommandTracingEventEmitter) (event : CommandFailedEvent) :
    TracingEventRecord :=
  let failure : Option ByteStr :=
    match event.failure.kind with
    | ErrorKind.redacted => none
    | _ => some event.failure.tracing_representation
  { target := COMMAND_TRACING_EVENT_TARGET
    level := Level.debug
    message := some "Command failed"
    fields :=
      clientIdFields testBuild self.client_id ++
      optField "failure" (failure.map FieldValue.str) ++
      [("command_name", FieldValue.str event.command_name),
       ("request_id", FieldValue.i64 event.request_id),
       ("driver_connection_id", FieldValue.i64 event.connection.id)] ++
      optField "server_connection_id"
        (event.connection.server_id.map FieldValue.i64) ++
      [("server_host", FieldValue.str event.connection.address.host)] ++
      optField "server_port"
        (event.connection.address.port.map FieldValue.u64) ++
      optField "service_id"
        (event.service_id.map fun i =>
          FieldValue.str i.tracing_representation) ++
      [("duration_ms", FieldValue.u128 event.duration_millis)] }

/-- Reason a connection was closed. -/

inductive ConnectionClosedReason where
  | stale
  | idle
  | error
  | dropped
  | poolClosed
  deriving DecidableEq

/-- Embedding of `impl TracingRepresentation for ConnectionClosedReason`: the fixed human
strings of the external contract. -/

def ConnectionClosedReason.tracing_representation :
    ConnectionClosedReason → ByteStr
  | .stale => strBytes "Connection became stale because the pool was cleared"
  | .idle => strBytes
      "Connection has been available but unused for longer than the configured max idle time"
  | .error => strBytes "An error occurred while using the connection"
  | .dropped => strBytes "Connection was dropped during an operation"
  | .poolClosed => strBytes "Connection pool was closed"

/-- Reason a connection checkout failed. -/

inductive ConnectionCheckoutFailedReason where
  | timeout
  | connectionError
  deriving DecidableEq

/-- Embedding of `impl TracingRepresentation for ConnectionCheckoutFailedReason`. -/

def ConnectionCheckoutFailedReason.tracing_representation :
    ConnectionCheckoutFailedReason → ByteStr
  | .timeout => strBytes
      "Wait queue timeout elapsed without a connection becoming available"
  | .connectionError => strBytes
      "An error occurred while trying to establish a connection"

/-- The event form of the pool options: `max_idle_time.as_millis()` is a
u128, the pool sizes are u32 values recorded as u64. -/

structure PoolOptions where
  max_idle_time_millis : Option Nat
  max_pool_size : Option Nat
  min_pool_size : Option Nat
  deriving DecidableEq

structure PoolCreatedEvent where
  address : ServerAddress
  options : Option PoolOptions
  deriving DecidableEq

structure PoolReadyEvent where
  address : ServerAddress
  deriving DecidableEq

structure PoolClearedEvent where
  address : ServerAddress
  service_id : Option ObjectId
  deriving DecidableEq

structure PoolClosedEvent where
  address : ServerAddress
  deriving DecidableEq

structure ConnectionCreatedEvent where
  address : ServerAddress
  connection_id : Int
  deriving DecidableEq

structure ConnectionReadyEvent where
  address : ServerAddress
  connection_id : Int
  deriving DecidableEq

structure ConnectionClosedEvent where
  address : ServerAddress
  connection_id : Int
  reason : ConnectionClosedReason
  deriving DecidableEq

structure ConnectionCheckoutStartedEvent where
  address : ServerAddress
  deriving DecidableEq

structure ConnectionCheckoutFailedEvent where
  address : ServerAddress
  reason : ConnectionCheckoutFailedReason
  deriving DecidableEq

structure ConnectionCheckedOutEvent where
  address : ServerAddress
  connection_id : Int
  deriving DecidableEq

structure ConnectionCheckedInEvent where
  address : ServerAddress
  connection_id : Int
  deriving DecidableEq

/-- The connection-pool tracing emitter holds only the optional client id. -/

structure ConnectionTracingEventEmitter where
  client_id : Option ByteStr
  deriving DecidableEq

/-- Embedding of `ConnectionTracingEventEmitter::new`. -/

def ConnectionTracingEventEmitter.new (client_id : Option ByteStr) :
    ConnectionTracingEventEmitter :=
  { client_id := client_id }

/-- Shared host and port fields of connection-pool events. -/

def addressFields (address : ServerAddress) : List (String × FieldValue) :=
  [("server_host", FieldValue.str address.host)] ++
  optField "server_port" (address.port.map FieldValue.u64)

def handle_pool_created_event (testBuild : Bool)
    (self : ConnectionTracingEventEmitter) (event : PoolCreatedEvent) :
    TracingEventRecord :=
  { target := CONNECTION_TRACING_EVENT_TARGET
    level := Level.debug
    message := some "Connection pool created"
    fields :=
      clientIdFields testBuild self.client_id ++
      addressFields event.address ++
      optField "max_idle_time_ms"
        ((event.options.bind fun o => o.max_idle_time_millis).map
          FieldValue.u128) ++
      optField "max_pool_size"
        ((event.options.bind fun o => o.max_pool_size).map FieldValue.u64) ++
      optField "min_pool_size"
        ((event.options.bind fun o => o.min_pool_size).map FieldValue.u64) }

def handle_pool_ready_event (testBuild : Bool)
    (self : ConnectionTracingEventEmitter) (event : PoolReadyEvent) :
    TracingEventRecord :=
  { target := CONNECTION_TRACING_EVENT_TARGET
    level := Level.debug
    message := some "Connection pool ready"
    fields :=
      clientIdFields testBuild self.client_id ++ addressFields event.address }

def handle_pool_cleared_event (testBuild : Bool)
    (self : ConnectionTracingEventEmitter) (event : PoolClearedEvent) :
    TracingEventRecord :=
  { target := CONNECTION_TRACING_EVENT_TARGET
    level := Level.debug
    message := some "Connection pool cleared"
    fields :=
      clientIdFields testBuild self.client_id ++
      addressFields event.address ++
      optField "service_id"
        (event.service_id.map fun i =>
          FieldValue.str i.tracing_representation) }

def handle_pool_closed_event (testBuild : Bool)
    (self : ConnectionTracingEventEmitter) (event : PoolClosedEvent) :
    TracingEventRecord :=
  { target := CONNECTION_TRACING_EVENT_TARGET
    level := Level.debug
    message := some "Connection pool closed"
    fields :=
      clientIdFields testBuild self.client_id ++ addressFields event.address }

def handle_connection_created_event (testBuild : Bool)
    (self : ConnectionTracingEventEmitter) (event : ConnectionCreatedEvent) :
    TracingEventRecord :=
  { target := CONNECTION_TRACING_EVENT_TARGET
    level := Level.debug
    message := some "Connection created"
    fields :=
      clientIdFields testBuild self.client_id ++
      addressFields event.address ++
      [("driver_connection_id", FieldValue.i64 event.connection_id)] }

def handle_connection_ready_event (testBuild : Bool)
    (self : ConnectionTracingEventEmitter) (event : ConnectionReadyEvent) :
    TracingEventRecord :=
  { target := CONNECTION_TRACING_EVENT_TARGET
    level := Level.debug
    message := some "Connection ready"
    fields :=
      clientIdFields testBuild self.client_id ++
      addressFields event.address ++
      [("driver_connection_id", FieldValue.i64 event.connection_id)] }

def handle_connection_closed_event (testBuild : Bool)
    (self : ConnectionTracingEventEmitter) (event : ConnectionClosedEvent) :
    TracingEventRecord :=
  { target := CONNECTION_TRACING_EVENT_TARGET
    level := Level.debug
    message := some "Connection closed"
    fields :=
      clientIdFields testBuild self.client_id ++
      addressFields event.address ++
      [("driver_connection_id", FieldValue.i64 event.connection_id),
       ("reason", FieldValue.str event.reason.tracing_representation)] }

def handle_connection_checkout_started_event (testBuild : Bool)
    (self : ConnectionTracingEventEmitter)
    (event : ConnectionCheckoutStartedEvent) : TracingEventRecord :=
  { target := CONNECTION_TRACING_EVENT_TARGET
    level := Level.debug
    message := some "Connection checkout started"
    fields :=
      clientIdFields testBuild self.client_id ++ addressFields event.address }

def handle_connection_checkout_failed_event (testBuild : Bool)
    (self : ConnectionTracingEventEmitter)
    (event : ConnectionCheckoutFailedEvent) : TracingEventRecord :=
  { target := CONNECTION_TRACING_EVENT_TARGET
    level := Level.debug
    message := some "Connection checkout failed"
    fields :=
      clientIdFields testBuild self.client_id ++
      addressFields event.address ++
      [("reason", FieldValue.str event.reason.tracing_representation)] }

def handle_connection_checked_out_event (testBuild : Bool)
    (self : ConnectionTracingEventEmitter)
    (event : ConnectionCheckedOutEvent) : TracingEventRecord :=
  { target := CONNECTION_TRACING_EVENT_TARGET
    level := Level.debug
    message := some "Connection checked out"
    fields :=
      clientIdFields testBuild self.client_id ++
      addressFields event.address ++
      [("driver_connection_id", FieldValue.i64 event.connection_id)] }

def handle_connection_checked_in_event (testBuild : Bool)
    (self : ConnectionTracingEventEmitter)
    (event : ConnectionCheckedInEvent) : TracingEventRecord :=
  { target := CONNECTION_TRACING_EVENT_TARGET
    level := Level.debug
    message := some "Connection checked in"
    fields :=
      clientIdFields testBuild self.client_id ++
      addressFields event.address ++
      [("driver_connection_id", FieldValue.i64 event.connection_id)] }

/-- A server description as serialized for SDAM events: either its
canonical extended-JSON rendering or, on serialization failure, the error
display; both carried abstractly. -/

structure ServerInfo where
  ser : Except ByteStr ByteStr

/-- Embedding of `impl TracingRepresentation for ServerInfo`: extended JSON on success,
the fixed fallback prefix plus the error display on failure. -/

def ServerInfo.tracing_representation (s : ServerInfo) : ByteStr :=
  match s.ser with
  | Except.ok json => json
  | Except.error err =>
      strBytes "Failed to serialize server description: " ++ err

/-- A topology description as serialized for SDAM events. -/

structure TopologyDescription where
  ser : Except ByteStr ByteStr

/-- Embedding of `impl TracingRepresentation for TopologyDescription`. -/

def TopologyDescription.tracing_representation (t : TopologyDescription) :
    ByteStr :=
  match t.ser with
  | Except.ok json => json
  | Except.error err =>
      strBytes "Failed to serialize topology description: " ++ err

structure ServerDescriptionChangedEvent where
  address : ServerAddress
  topology_id : ObjectId
  previous_description : ServerInfo
  new_description : ServerInfo

structure ServerOpeningEvent where
  address : ServerAddress
  topology_id : ObjectId
  deriving DecidableEq

structure ServerClosedEvent where
  address : ServerAddress
  topology_id : ObjectId
  deriving DecidableEq

structure TopologyDescriptionChangedEvent where
  topology_id : ObjectId
  previous_description : TopologyDescription
  new_description : TopologyDescription

structure TopologyOpeningEvent where
  topology_id : ObjectId
  deriving DecidableEq

structure TopologyClosedEvent where
  topology_id : ObjectId
  deriving DecidableEq

structure ServerHeartbeatStartedEvent where
  server_address : ServerAddress
  deriving DecidableEq

structure ServerHeartbeatSucceededEvent where
  server_address : ServerAddress
  duration_millis : Nat
  reply : Document
  deriving DecidableEq

structure ServerHeartbeatFailedEvent where
  server_address : ServerAddress
  duration_millis : Nat
  deriving DecidableEq

/-- The SDAM tracing emitter: maximum document length and optional client
id. SDAM events carry no message string. -/

structure SdamTracingEventEmitter where
  max_document_length_bytes : Nat
  client_id : Option ByteStr
  deriving DecidableEq

def handle_server_description_changed_event (testBuild : Bool)
    (self : SdamTracingEventEmitter) (event : ServerDescriptionChangedEvent) :
    TracingEventRecord :=
  { target := SDAM_TRACING_EVENT_TARGET
    level := Level.debug
    message := none
    fields :=
      clientIdFields testBuild self.client_id ++
      addressFields event.address ++
      [("topology_id",
          FieldValue.str event.topology_id.tracing_representation),
       ("previous_description",
          FieldValue.str event.previous_description.tracing_representation),
       ("new_description",
          FieldValue.str event.new_description.tracing_representation)] }

def handle_server_opening_event (testBuild : Bool)
    (self : SdamTracingEventEmitter) (event : ServerOpeningEvent) :
    TracingEventRecord :=
  { target := SDAM_TRACING_EVENT_TARGET
    level := Level.debug
    message := none
    fields :=
      clientIdFields testBuild self.client_id ++
      addressFields event.address ++
      [("topology_id",
          FieldValue.str event.topology_id.tracing_representation)] }

def handle_server_closed_event (testBuild : Bool)
    (self : SdamTracingEventEmitter) (event : ServerClosedEvent) :
    TracingEventRecord :=
  { target := SDAM_TRACING_EVENT_TARGET
    level := Level.debug
    message := none
    fields :=
      clientIdFields testBuild self.client_id ++
      addressFields event.address ++
      [("topology_id",
          FieldValue.str event.topology_id.tracing_representation)] }

def handle_topology_description_changed_event (testBuild : Bool)
    (self : SdamTracingEventEmitter)
    (event : TopologyDescriptionChangedEvent) : TracingEventRecord :=
  { target := SDAM_TRACING_EVENT_TARGET
    level := Level.debug
    message := none
    fields :=
      clientIdFields testBuild self.client_id ++
      [("topology_id",
          FieldValue.str event.topology_id.tracing_representation),
       ("previous_description",
          FieldValue.str event.previous_description.tracing_representation),
       ("new_description",
          FieldValue.str event.new_description.tracing_representation)] }

def handle_topology_opening_event (testBuild : Bool)
    (self : SdamTracingEventEmitter) (event : TopologyOpeningEvent) :
    TracingEventRecord :=
  { target := SDAM_TRACING_EVENT_TARGET
    level := Level.debug
    message := none
    fields :=
      clientIdFields testBuild self.client_id ++
      [("topology_id",
          FieldValue.str event.topology_id.tracing_representation)] }

def handle_topology_closed_event (testBuild : Bool)
    (self : SdamTracingEventEmitter) (event : TopologyClosedEvent) :
    TracingEventRecord :=
  { target := SDAM_TRACING_EVENT_TARGET
    level := Level.debug
    message := none
    fields :=
      clientIdFields testBuild self.client_id ++
      [("topology_id",
          FieldValue.str event.topology_id.tracing_representation)] }

def handle_server_heartbeat_started_event (testBuild : Bool)
    (self : SdamTracingEventEmitter) (event : ServerHeartbeatStartedEvent) :
    TracingEventRecord :=
  { target := SDAM_TRACING_EVENT_TARGET
    level := Level.debug
    message := none
    fields :=
      clientIdFields testBuild self.client_id ++
      addressFields event.server_address ++
      [("awaited", FieldValue.bool false)] }

def handle_server_heartbeat_succeeded_event (testBuild : Bool)
    (self : SdamTracingEventEmitter) (event : ServerHeartbeatSucceededEvent) :
    TracingEventRecord :=
  { target := SDAM_TRACING_EVENT_TARGET
    level := Level.debug
    message := none
    fields :=
      clientIdFields testBuild self.client_id ++
      addressFields event.server_address ++
      [("duration_ms", FieldValue.u128 event.duration_millis),
       ("reply", FieldValue.str
          (serialize_command_or_reply event.reply
            self.max_document_length_bytes)),
       ("awaited", FieldValue.bool false)] }

def handle_server_heartbeat_failed_event (testBuild : Bool)
    (self : SdamTracingEventEmitter) (event : ServerHeartbeatFailedEvent) :
    TracingEventRecord :=
  { target := SDAM_TRACING_EVENT_TARGET
    level := Level.debug
    message := none
    fields :=
      clientIdFields testBuild self.client_id ++
      addressFields event.server_address ++
      [("duration_ms", FieldValue.u128 event.duration_millis),
       ("awaited", FieldValue.bool false)] }

/-- A concrete command-succeeded event used as test input. -/

def sampleSucceededEvent : CommandSucceededEvent :=
  { reply := { extjson := [] }
    command_name := []
    request_id := 0
    connection := { id := 0, server_id := none
                    address := { host := [], port := none } }
    service_id := none
    duration_millis := 5 }

/-- A concrete command-started event sharing connection data with
`sampleSucceededEvent`. -/

def sampleStartedEvent : CommandStartedEvent :=
  { command := { extjson := [] }
    db := []
    command_name := []
    request_id := 0
    connection := { id := 0, server_id := none
                    address := { host := [], port := none } }
    service_id := none }

/-- A client entity of the declarative test file, carrying the optional
observeLogMessages mapping from component string to maximum level. -/

structure ClientEntity where
  observe_log_messages : Option (List (String × Level))

/-- An entity declared by a test file; only client entities carry log
levels. The entity enum itself is defined by the unified test runner
outside the verified sources. -/

inductive TestFileEntity where
  | client (c : ClientEntity)
  | database
  | collection
  | session
  | bucket

/-- A test operation. `as_test_file_entities`, defined by the unified
runner outside the verified sources, yields the entities a createEntities
operation declares; they are modelled as a field of the operation. -/

structure Operation where
  name : String
  entities : List TestFileEntity

structure Test where
  operations : List Operation

structure TestFile where
  tests : List Test
  create_entities : Option (List TestFileEntity)

/-- One step of the merge in `update_merged_levels`: a key already present
keeps its entry, updated to `Ord::max` of the stored and incoming levels;
an absent key is inserted. -/

def updateMax (m : List (String × Level)) (k : String) (v : Level) :
    List (String × Level) :=
  match m with
  | [] => [(k, v)]
  | (k2, v2) :: rest =>
      if k2 = k then (k2, Level.ord_max v2 v) :: rest
      else (k2, v2) :: updateMax rest k v

/-- The closure `update_merged_levels` of
`max_verbosity_levels_from_test_file`: a client entity folds its observed
log levels into the merged map; every other entity contributes nothing. -/

def update_merged_levels (m : List (String × Level)) (e : TestFileEntity) :
    List (String × Level) :=
  match e with
  | .client c =>
      match c.observe_log_messages with
      | some log_levels =>
          log_levels.foldl (fun m p => updateMax m p.1 p.2) m
      | none => m
  | _ => m

/-- Embedding of `max_verbosity_levels_from_test_file` from `test/util/trace.rs`: visit
every test, its operations named createEntities and their entities, then
the top-level create_entities list, merging the levels of every client into one
flattened map. -/

def max_verbosity_levels_from_test_file (f : TestFile) :
    List (String × Level) :=
  let m :=
    f.tests.foldl
      (fun m test =>
        (test.operations.filter
            (fun o => o.name == "createEntities")).foldl
          (fun m o => o.entities.foldl update_merged_levels m) m)
      []
  match f.create_entities with
  | some es => es.foldl update_merged_levels m
  | none => m

/-- The levels one entity declares for component `t`. -/

def entity_declared (t : String) : TestFileEntity → List Level
  | .client c =>
      ((c.observe_log_messages.getD []).filter (fun p => p.1 == t)).map
        (fun p => p.2)
  | _ => []

/-- All levels declared for component `t` across the entities the traversal
visits, in traversal order. -/

def declared_levels (f : TestFile) (t : String) : List Level :=
  (f.tests.bind fun test =>
    (test.operations.filter (fun o => o.name == "createEntities")).bind
      fun o => o.entities.bind (entity_declared t)) ++
  ((f.create_entities.getD []).bind (entity_declared t))

/-- The maximum of a list of levels under the tracing order, none for the
empty list. -/

def maxLevelList : List Level → Option Level
  | [] => none
  | l :: ls =>
      match maxLevelList ls with
      | none => some l
      | some m => some (Level.ord_max l m)

/-- Maximum lifted to optional levels. -/

def optMax : Option Level → Option Level → Option Level
  | none, b => b
  | some a, none => some a
  | some a, some b => some (Level.ord_max a b)

/-- One receive outcome on the broadcast channel: an event, a lagged error
carrying the number of skipped events, or a closed channel. -/

inductive RecvResult where
  | ok (e : TracingEventRecord)
  | lagged (amount_skipped : Nat)
  | closed
  deriving DecidableEq

/-- The outcome of `wait_for_event`: a matching event, absence (timeout
elapsed or channel closed), or a panic carrying its message. -/

inductive WaitResult where
  | found (e : TracingEventRecord)
  | absent
  | panic (msg : String)
  deriving DecidableEq

/-- Embedding of `TracingSubscriber::wait_for_event`: the loop draws
successive receiver results until the timeout elapses (the sequence is
exhausted); a matching event is returned, a non-matching one skipped, a
lagged error panics with the skip count formatted into the message, a
closed channel yields absence. -/

def wait_for_event (filter : TracingEventRecord → Bool) :
    List RecvResult → WaitResult
  | [] => WaitResult.absent
  | RecvResult.ok e :: rest =>
      if filter e then WaitResult.found e else wait_for_event filter rest
  | RecvResult.lagged amount_skipped :: _ =>
      WaitResult.panic
        ("receiver lagged and skipped " ++ toString amount_skipped ++
          " events")
  | RecvResult.closed :: _ => WaitResult.absent

/-- A pooled connection as far as the checkout path observes it. -/

structure Connection where
  id : Int
  address : ServerAddress
  deriving DecidableEq

/-- Embedding of `Connection::checked_out_event`, defined in the connection module
outside the verified sources: the checked-out event carries the connection
address and driver id. -/

def Connection.checked_out_event (c : Connection) :
    ConnectionCheckedOutEvent :=
  { address := c.address, connection_id := c.id }

/-- The CMAP event enum routed through `emit_cmap_event` to the user and
tracing handlers. -/

inductive CmapEvent where
  | poolCreated (e : PoolCreatedEvent)
  | poolReady (e : PoolReadyEvent)
  | poolCleared (e : PoolClearedEvent)
  | poolClosed (e : PoolClosedEvent)
  | connectionCreated (e : ConnectionCreatedEvent)
  | connectionReady (e : ConnectionReadyEvent)
  | connectionClosed (e : ConnectionClosedEvent)
  | connectionCheckoutStarted (e : ConnectionCheckoutStartedEvent)
  | connectionCheckoutFailed (e : ConnectionCheckoutFailedEvent)
  | connectionCheckedOut (e : ConnectionCheckedOutEvent)
  | connectionCheckedIn (e : ConnectionCheckedInEvent)
  deriving DecidableEq

/-- Embedding of `Error::pool_cleared_error`, defined in the error module outside the
verified sources: a ConnectionPoolCleared error derived from the clearing
cause; its display text is carried abstractly. -/

def Error.pool_cleared_error (address : ServerAddress) (cause : Error) :
    Error :=
  { kind := ErrorKind.connectionPoolCleared, display := cause.display }

/-- The worker response to a connection request: an already-pooled
connection, an establishment task (modelled by its awaited outcome), or a
cleared-pool error. -/

inductive ConnectionRequestResult where
  | pooled (c : Connection)
  | establishing (outcome : Except Error Connection)
  | poolCleared (e : Error)

/-- Embedding of `ConnectionPool::check_out` from `cmap/mod.rs`: emit
checkout-started, obtain the request response, then emit checked-out on a
successful result or checkout-failed with reason ConnectionError on an
error; the function returns the emitted event sequence in order together
with the result. -/

def ConnectionPool.check_out (address : ServerAddress)
    (response : ConnectionRequestResult) :
    List CmapEvent × Except Error Connection :=
  let started := CmapEvent.connectionCheckoutStarted { address := address }
  let conn : Except Error Connection :=
    match response with
    | ConnectionRequestResult.pooled c => Except.ok c
    | ConnectionRequestResult.establishing outcome => outcome
    | ConnectionRequestResult.poolCleared e =>
        Except.error (Error.pool_cleared_error address e)
  match conn with
  | Except.ok c =>
      ([started, CmapEvent.connectionCheckedOut c.checked_out_event],
        Except.ok c)
  | Except.error e =>
      ([started,
        CmapEvent.connectionCheckoutFailed
          { address := address
            reason := ConnectionCheckoutFailedReason.connectionError }],
        Except.error e)

theorem is_cont_iff {b : Nat} : is_cont b = true ↔ 0x80 ≤ b ∧ b < 0xC0 := by
  simp [is_cont]

theorem is_cont_false_iff {b : Nat} : is_cont b = false ↔ b < 0x80 ∨ 0xC0 ≤ b := by
  simp only [is_cont, Bool.and_eq_false_iff, decide_eq_false_iff_not]
  omega

/-- A well-formed encoded scalar is a non-continuation lead byte followed by
continuation bytes. -/
theorem isUtf8Char_shape {c : List Nat} (h : isUtf8Char c = true) :
    ∃ b bs, c = b :: bs ∧ is_cont b = false ∧ ∀ x ∈ bs, is_cont x = true := by
  match c with
  | [] => simp [isUtf8Char] at h
  | [b] =>
    simp only [isUtf8Char, is_cont, decide_eq_true_eq] at h
    exact ⟨b, [], rfl, by simp only [is_cont_false_iff]; omega, by simp⟩
  | [b1, b2] =>
    simp only [isUtf8Char, is_cont, Bool.and_eq_true, decide_eq_true_eq] at h
    refine ⟨b1, [b2], rfl, by simp only [is_cont_false_iff]; omega, ?_⟩
    intro x hx
    simp only [List.mem_singleton] at hx
    subst hx
    simp only [is_cont_iff]
    omega
  | [b1, b2, b3] =>
    simp only [isUtf8Char, is_cont, Bool.and_eq_true, Bool.or_eq_true,
      decide_eq_true_eq] at h
    refine ⟨b1, [b2, b3], rfl, by simp only [is_cont_false_iff]; omega, ?_⟩
    intro x hx
    simp only [List.mem_cons, List.mem_singleton, List.not_mem_nil, or_false] at hx
    rcases hx with rfl | rfl <;> (simp only [is_cont_iff]; omega)
  | [b1, b2, b3, b4] =>
    simp only [isUtf8Char, is_cont, Bool.and_eq_true, Bool.or_eq_true,
      decide_eq_true_eq] at h
    refine ⟨b1, [b2, b3, b4], rfl, by simp only [is_cont_false_iff]; omega, ?_⟩
    intro x hx
    simp only [List.mem_cons, List.mem_singleton, List.not_mem_nil, or_false] at hx
    rcases hx with rfl | rfl | rfl <;> (simp only [is_cont_iff]; omega)
  | b1 :: b2 :: b3 :: b4 :: b5 :: rest => simp [isUtf8Char] at h

/-- The length of a string is always one of its character boundaries. -/
theorem is_char_boundary_length (s : ByteStr) : is_char_boundary s s.length = true := by
  unfold is_char_boundary
  rcases Nat.eq_zero_or_pos s.length with h | h
  · simp [h]
  · have hnone : s.get? s.length = none := by
      rw [List.get?_eq_none]
    simp [Nat.pos_iff_ne_zero.mp h, hnone]

/-- With enough fuel to reach the end of the string, the boundary-search loop
returns the least character boundary at or after its starting index; in
particular it stops on the boundary test, not on fuel exhaustion. -/
theorem ceil_loop_spec (s : ByteStr) :
    ∀ fuel i, i ≤ s.length → s.length < fuel + i →
      i ≤ ceil_loop s fuel i ∧ ceil_loop s fuel i ≤ s.length ∧
      is_char_boundary s (ceil_loop s fuel i) = true ∧
      ∀ k, i ≤ k → is_char_boundary s k = true → ceil_loop s fuel i ≤ k := by
  intro fuel
  induction fuel with
  | zero => intro i hi hlt; omega
  | succ fuel ih =>
    intro i hi hlt
    by_cases hb : is_char_boundary s i = true
    · have hr : ceil_loop s (fuel + 1) i = i := by
        simp only [ceil_loop, if_pos hb]
      rw [hr]
      exact ⟨Nat.le_refl i, hi, hb, fun k hk _ => hk⟩
    · have hne : i ≠ s.length := by
        intro he
        exact hb (he ▸ is_char_boundary_length s)
      have hi1 : i + 1 ≤ s.length := by omega
      have hlt1 : s.length < fuel + (i + 1) := by omega
      obtain ⟨h1, h2, h3, h4⟩ := ih (i + 1) hi1 hlt1
      have hr : ceil_loop s (fuel + 1) i = ceil_loop s fuel (i + 1) := by
        simp only [ceil_loop, if_neg hb]
      rw [hr]
      refine ⟨by omega, h2, h3, ?_⟩
      intro k hk hbk
      have : i ≠ k := by
        intro he
        exact hb (he ▸ hbk)
      exact h4 k (by omega) hbk

/-- Characterization of truncation below the length: the result is a prefix of
`s` whose length is the least character boundary at or after the budget. -/
theorem truncate_lt (s : ByteStr) (n : Nat) (h : n < s.length) :
    ∃ m, truncate_on_char_boundary s n = s.take m ∧ n ≤ m ∧ m ≤ s.length ∧
      is_char_boundary s m = true ∧
      ∀ k, n ≤ k → is_char_boundary s k = true → m ≤ k := by
  obtain ⟨h1, h2, h3, h4⟩ :=
    ceil_loop_spec s (s.length - n + 1) n (Nat.le_of_lt h) (by omega)
  exact ⟨ceil_loop s (s.length - n + 1) n,
    by simp only [truncate_on_char_boundary, if_pos h], h1, h2, h3, h4⟩

/-- Taking a prefix of a valid UTF-8 string at a character boundary yields a
valid UTF-8 string: boundaries of a valid string never fall inside an encoded
scalar value. -/
theorem take_boundary_valid {s : ByteStr} (hv : Utf8Valid s) :
    ∀ i, is_char_boundary s i = true → i ≤ s.length → Utf8Valid (s.take i) := by
  induction hv with
  | nil =>
    intro i _ hi
    simp only [List.length_nil, Nat.le_zero] at hi
    subst hi
    exact Utf8Valid.nil
  | cons c rest hc hrest ih =>
    intro i hbi hi
    obtain ⟨b, bs, hcbs, hb, hbs⟩ := isUtf8Char_shape hc
    rcases Nat.eq_zero_or_pos i with hz | hpos
    · subst hz
      simpa using Utf8Valid.nil
    rcases Nat.lt_or_ge i c.length with hlt | hge
    · exfalso
      have hget : (c ++ rest).get? i = c.get? i := List.get?_append hlt
      have hcl : c.get? i = bs.get? (i - 1) := by
        subst hcbs
        cases i with
        | zero => omega
        | succ j => simp
      have hlen : i - 1 < bs.length := by
        subst hcbs
        simp only [List.length_cons] at hlt
        omega
      have hx : bs.get? (i - 1) = some (bs.get ⟨i - 1, hlen⟩) := List.get?_eq_get hlen
      have hxmem : bs.get ⟨i - 1, hlen⟩ ∈ bs := List.get_mem bs (i - 1) hlen
      have hxc : is_cont (bs.get ⟨i - 1, hlen⟩) = true := hbs _ hxmem
      rw [is_cont_iff] at hxc
      unfold is_char_boundary at hbi
      rw [if_neg (by omega), hget, hcl, hx] at hbi
      simp only [Bool.or_eq_true, decide_eq_true_eq] at hbi
      omega
    · have hrest_len : i - c.length ≤ rest.length := by
        rw [List.length_append] at hi
        omega
      have hbrest : is_char_boundary rest (i - c.length) = true := by
        rcases Nat.eq_zero_or_pos (i - c.length) with hz | hp
        · unfold is_char_boundary
          rw [if_pos hz]
        · have hgr : (c ++ rest).get? i = rest.get? (i - c.length) :=
            List.get?_append_right hge
          unfold is_char_boundary at hbi ⊢
          rw [if_neg (by omega)] at hbi
          rw [if_neg (by omega)]
          rw [hgr] at hbi
          cases hrg : rest.get? (i - c.length) with
          | none =>
            rw [hrg] at hbi
            simp only [decide_eq_true_eq, List.length_append] at hbi
            simp only [decide_eq_true_eq]
            omega
          | some b2 =>
            rw [hrg] at hbi
            exact hbi
      have hvtake : Utf8Valid (rest.take (i - c.length)) := ih _ hbrest hrest_len
      have htake : (c ++ rest).take i = c ++ rest.take (i - c.length) := by
        rw [List.take_append_eq_append_take, List.take_of_length_le hge]
      rw [htake]
      exact Utf8Valid.cons c _ hc hvtake

/-- The two-emoji test string is valid UTF-8. -/
theorem twoEmoji_valid : Utf8Valid twoEmoji := by
  have h1 : Utf8Valid oneEmoji := by
    have h := Utf8Valid.cons oneEmoji [] (by decide) Utf8Valid.nil
    simpa using h
  exact Utf8Valid.cons oneEmoji oneEmoji (by decide) h1

/-- C1: for every string `s` and byte budget `n`, `truncate_on_char_boundary`
shortens `s` to the smallest length `m` with `m ≥ n` that is a UTF-8
character boundary of `s`; if `n ≥ len(s)` the string is unchanged; and on
the 8-byte two-emoji string, budgets 0, 1, 4, 5, 8, 10 yield the empty
string, one emoji, one emoji, both emoji, both emoji, both emoji. -/
theorem truncate_on_char_boundary_spec (s : ByteStr) (n : Nat) :
    (s.length ≤ n → truncate_on_char_boundary s n = s) ∧
    (n < s.length →
      ∃ m, truncate_on_char_boundary s n = s.take m ∧
        (truncate_on_char_boundary s n).length = m ∧
        n ≤ m ∧ m ≤ s.length ∧ is_char_boundary s m = true ∧
        ∀ k, n ≤ k → is_char_boundary s k = true → m ≤ k) ∧
    (truncate_on_char_boundary twoEmoji 0 = [] ∧
     truncate_on_char_boundary twoEmoji 1 = oneEmoji ∧
     truncate_on_char_boundary twoEmoji 4 = oneEmoji ∧
     truncate_on_char_boundary twoEmoji 5 = twoEmoji ∧
     truncate_on_char_boundary twoEmoji 8 = twoEmoji ∧
     truncate_on_char_boundary twoEmoji 10 = twoEmoji) := by
  refine ⟨?_, ?_, by decide⟩
  · intro h
    simp only [truncate_on_char_boundary]
    rw [if_neg (by omega)]
  · intro h
    obtain ⟨m, he, h1, h2, h3, h4⟩ := truncate_lt s n h
    exact ⟨m, he, by rw [he, List.length_take]; omega, h1, h2, h3, h4⟩

/-- Witness for C1 at concrete inputs: the no-op case at budget 10 and the
boundary-rounding case at budget 1 on the two-emoji string. -/
theorem truncate_on_char_boundary_spec_witness :
    truncate_on_char_boundary twoEmoji 10 = twoEmoji ∧
    ∃ m, truncate_on_char_boundary twoEmoji 1 = twoEmoji.take m ∧
      (truncate_on_char_boundary twoEmoji 1).length = m ∧
      1 ≤ m ∧ m ≤ twoEmoji.length ∧ is_char_boundary twoEmoji m = true ∧
      ∀ k, 1 ≤ k → is_char_boundary twoEmoji k = true → m ≤ k :=
  ⟨(truncate_on_char_boundary_spec twoEmoji 10).1 (by decide),
   (truncate_on_char_boundary_spec twoEmoji 1).2.1 (by decide)⟩

/-- C8: for every string and budget, truncation yields valid UTF-8 (no code
point is ever split, and the internal truncate call happens at a character
boundary of the original string, so it cannot panic); the result length is
at least `min n len(s)`, at most `len(s)`, and is a boundary of `s`. -/
theorem truncate_on_char_boundary_safety (s : ByteStr) (n : Nat)
    (hv : Utf8Valid s) :
    Utf8Valid (truncate_on_char_boundary s n) ∧
    min n s.length ≤ (truncate_on_char_boundary s n).length ∧
    (truncate_on_char_boundary s n).length ≤ s.length ∧
    is_char_boundary s ((truncate_on_char_boundary s n).length) = true := by
  rcases Nat.lt_or_ge n s.length with h | h
  · obtain ⟨m, he, h1, h2, h3, h4⟩ := truncate_lt s n h
    have hlen : (truncate_on_char_boundary s n).length = m := by
      rw [he, List.length_take]
      omega
    refine ⟨?_, ?_, ?_, ?_⟩
    · rw [he]
      exact take_boundary_valid hv m h3 h2
    · rw [hlen]
      omega
    · rw [hlen]
      omega
    · rw [hlen]
      exact h3
  · have he : truncate_on_char_boundary s n = s := by
      simp only [truncate_on_char_boundary]
      rw [if_neg (by omega)]
    rw [he]
    exact ⟨hv, by omega, Nat.le_refl _, is_char_boundary_length s⟩

/-- Witness for C8 at a concrete input: budget 2 on the two-emoji string. -/
theorem truncate_on_char_boundary_safety_witness :
    Utf8Valid (truncate_on_char_boundary twoEmoji 2) ∧
    min 2 twoEmoji.length ≤ (truncate_on_char_boundary twoEmoji 2).length ∧
    (truncate_on_char_boundary twoEmoji 2).length ≤ twoEmoji.length ∧
    is_char_boundary twoEmoji ((truncate_on_char_boundary twoEmoji 2).length) = true :=
  truncate_on_char_boundary_safety twoEmoji 2 twoEmoji_valid

/-- The tracing-order comparison agrees with the verbosity ranking of the
specification. -/
theorem Level.le_iff_verbosity (a b : Level) :
    Level.le a b = true ↔ a.verbosity ≤ b.verbosity := by
  cases a <;> cases b <;> decide

/-- C2: the hub enabled predicate drops events whose target is absent from
the level map, and otherwise enables an event iff its level is at most the
configured maximum under the ordering Error < Warn < Info < Debug < Trace. -/
theorem TracingHandler.enabled_spec (levels : List (String × Level))
    (t : String) (l : Level) :
    (lookupLevel levels t = none → TracingHandler.enabled levels t l = false) ∧
    (∀ m, lookupLevel levels t = some m →
      (TracingHandler.enabled levels t l = true ↔ l.verbosity ≤ m.verbosity)) := by
  constructor
  · intro h
    simp only [TracingHandler.enabled, h]
  · intro m h
    simp only [TracingHandler.enabled, h]
    exact Level.le_iff_verbosity l m

/-- Witness for C2: a map holding only the command target at Debug drops an
event for the sdam target and enables a Debug command event. -/
theorem TracingHandler.enabled_spec_witness :
    TracingHandler.enabled [("mongodb::command", Level.debug)] "mongodb::sdam"
      Level.debug = false ∧
    (TracingHandler.enabled [("mongodb::command", Level.debug)]
        "mongodb::command" Level.debug = true ↔
      Level.verbosity Level.debug ≤ Level.verbosity Level.debug) :=
  ⟨(TracingHandler.enabled_spec [("mongodb::command", Level.debug)]
      "mongodb::sdam" Level.debug).1 (by decide),
   (TracingHandler.enabled_spec [("mongodb::command", Level.debug)]
      "mongodb::command" Level.debug).2 Level.debug (by decide)⟩

/-- Field lookup distributes over list append, first binding winning. -/
theorem lookupField_append (l1 l2 : List (String × FieldValue)) (t : String) :
    lookupField (l1 ++ l2) t =
      match lookupField l1 t with
      | some v => some v
      | none => lookupField l2 t := by
  induction l1 with
  | nil => simp [lookupField]
  | cons p rest ih =>
    obtain ⟨k, v⟩ := p
    by_cases h : k = t
    · simp [lookupField, h]
    · simp [lookupField, h, ih]

/-- C3 as stated fails on the code: the target of a connection-pool event is the
string `mongodb::connection`, which is none of `db.command`,
`db.connection`, `db.sdam`. -/
theorem tracing_event_targets_counterexample :
    (handle_pool_ready_event false (ConnectionTracingEventEmitter.new none)
        { address := { host := [], port := none } }).target ∉
      (["db.command", "db.connection", "db.sdam"] : List String) ∧
    COMMAND_TRACING_EVENT_TARGET ≠ "db.command" ∧
    CONNECTION_TRACING_EVENT_TARGET ≠ "db.connection" ∧
    SDAM_TRACING_EVENT_TARGET ≠ "db.sdam" := by
  refine ⟨?_, by decide, by decide, by decide⟩
  simp [handle_pool_ready_event, CONNECTION_TRACING_EVENT_TARGET]

/-- C3 amended: the three emitters publish under the fixed targets
`mongodb::command`, `mongodb::connection` and `mongodb::sdam`; every
the target of every emitted event is one of exactly these three strings. -/
theorem tracing_event_targets (testBuild : Bool)
    (ce : CommandTracingEventEmitter) (ne : ConnectionTracingEventEmitter)
    (se : SdamTracingEventEmitter)
    (e1 : CommandStartedEvent) (e2 : CommandSucceededEvent)
    (e3 : CommandFailedEvent) (e4 : PoolCreatedEvent) (e5 : PoolReadyEvent)
    (e6 : PoolClearedEvent) (e7 : PoolClosedEvent)
    (e8 : ConnectionCreatedEvent) (e9 : ConnectionReadyEvent)
    (e10 : ConnectionClosedEvent) (e11 : ConnectionCheckoutStartedEvent)
    (e12 : ConnectionCheckoutFailedEvent) (e13 : ConnectionCheckedOutEvent)
    (e14 : ConnectionCheckedInEvent) (e15 : ServerDescriptionChangedEvent)
    (e16 : ServerOpeningEvent) (e17 : ServerClosedEvent)
    (e18 : TopologyDescriptionChangedEvent) (e19 : TopologyOpeningEvent)
    (e20 : TopologyClosedEvent) (e21 : ServerHeartbeatStartedEvent)
    (e22 : ServerHeartbeatSucceededEvent)
    (e23 : ServerHeartbeatFailedEvent) :
    COMMAND_TRACING_EVENT_TARGET = "mongodb::command" ∧
    CONNECTION_TRACING_EVENT_TARGET = "mongodb::connection" ∧
    SDAM_TRACING_EVENT_TARGET = "mongodb::sdam" ∧
    (handle_command_started_event testBuild ce e1).target =
      COMMAND_TRACING_EVENT_TARGET ∧
    (handle_command_succeeded_event testBuild ce e2).target =
      COMMAND_TRACING_EVENT_TARGET ∧
    (handle_command_failed_event testBuild ce e3).target =
      COMMAND_TRACING_EVENT_TARGET ∧
    (handle_pool_created_event testBuild ne e4).target =
      CONNECTION_TRACING_EVENT_TARGET ∧
    (handle_pool_ready_event testBuild ne e5).target =
      CONNECTION_TRACING_EVENT_TARGET ∧
    (handle_pool_cleared_event testBuild ne e6).target =
      CONNECTION_TRACING_EVENT_TARGET ∧
    (handle_pool_closed_event testBuild ne e7).target =
      CONNECTION_TRACING_EVENT_TARGET ∧
    (handle_connection_created_event testBuild ne e8).target =
      CONNECTION_TRACING_EVENT_TARGET ∧
    (handle_connection_ready_event testBuild ne e9).target =
      CONNECTION_TRACING_EVENT_TARGET ∧
    (handle_connection_closed_event testBuild ne e10).target =
      CONNECTION_TRACING_EVENT_TARGET ∧
    (handle_connection_checkout_started_event testBuild ne e11).target =
      CONNECTION_TRACING_EVENT_TARGET ∧
    (handle_connection_checkout_failed_event testBuild ne e12).target =
      CONNECTION_TRACING_EVENT_TARGET ∧
    (handle_connection_checked_out_event testBuild ne e13).target =
      CONNECTION_TRACING_EVENT_TARGET ∧
    (handle_connection_checked_in_event testBuild ne e14).target =
      CONNECTION_TRACING_EVENT_TARGET ∧
    (handle_server_description_changed_event testBuild se e15).target =
      SDAM_TRACING_EVENT_TARGET ∧
    (handle_server_opening_event testBuild se e16).target =
      SDAM_TRACING_EVENT_TARGET ∧
    (handle_server_closed_event testBuild se e17).target =
      SDAM_TRACING_EVENT_TARGET ∧
    (handle_topology_description_changed_event testBuild se e18).target =
      SDAM_TRACING_EVENT_TARGET ∧
    (handle_topology_opening_event testBuild se e19).target =
      SDAM_TRACING_EVENT_TARGET ∧
    (handle_topology_closed_event testBuild se e20).target =
      SDAM_TRACING_EVENT_TARGET ∧
    (handle_server_heartbeat_started_event testBuild se e21).target =
      SDAM_TRACING_EVENT_TARGET ∧
    (handle_server_heartbeat_succeeded_event testBuild se e22).target =
      SDAM_TRACING_EVENT_TARGET ∧
    (handle_server_heartbeat_failed_event testBuild se e23).target =
      SDAM_TRACING_EVENT_TARGET := by
  and_intros <;> rfl

/-- C9: every event produced by any handler of the three emitters carries
the Debug level fixed at the emission site, for every build flavor, emitter
configuration and input event. -/
theorem tracing_event_levels (testBuild : Bool)
    (ce : CommandTracingEventEmitter) (ne : ConnectionTracingEventEmitter)
    (se : SdamTracingEventEmitter)
    (e1 : CommandStartedEvent) (e2 : CommandSucceededEvent)
    (e3 : CommandFailedEvent) (e4 : PoolCreatedEvent) (e5 : PoolReadyEvent)
    (e6 : PoolClearedEvent) (e7 : PoolClosedEvent)
    (e8 : ConnectionCreatedEvent) (e9 : ConnectionReadyEvent)
    (e10 : ConnectionClosedEvent) (e11 : ConnectionCheckoutStartedEvent)
    (e12 : ConnectionCheckoutFailedEvent) (e13 : ConnectionCheckedOutEvent)
    (e14 : ConnectionCheckedInEvent) (e15 : ServerDescriptionChangedEvent)
    (e16 : ServerOpeningEvent) (e17 : ServerClosedEvent)
    (e18 : TopologyDescriptionChangedEvent) (e19 : TopologyOpeningEvent)
    (e20 : TopologyClosedEvent) (e21 : ServerHeartbeatStartedEvent)
    (e22 : ServerHeartbeatSucceededEvent)
    (e23 : ServerHeartbeatFailedEvent) :
    (handle_command_started_event testBuild ce e1).level = Level.debug ∧
    (handle_command_succeeded_event testBuild ce e2).level = Level.debug ∧
    (handle_command_failed_event testBuild ce e3).level = Level.debug ∧
    (handle_pool_created_event testBuild ne e4).level = Level.debug ∧
    (handle_pool_ready_event testBuild ne e5).level = Level.debug ∧
    (handle_pool_cleared_event testBuild ne e6).level = Level.debug ∧
    (handle_pool_closed_event testBuild ne e7).level = Level.debug ∧
    (handle_connection_created_event testBuild ne e8).level = Level.debug ∧
    (handle_connection_ready_event testBuild ne e9).level = Level.debug ∧
    (handle_connection_closed_event testBuild ne e10).level = Level.debug ∧
    (handle_connection_checkout_started_event testBuild ne e11).level =
      Level.debug ∧
    (handle_connection_checkout_failed_event testBuild ne e12).level =
      Level.debug ∧
    (handle_connection_checked_out_event testBuild ne e13).level =
      Level.debug ∧
    (handle_connection_checked_in_event testBuild ne e14).level =
      Level.debug ∧
    (handle_server_description_changed_event testBuild se e15).level =
      Level.debug ∧
    (handle_server_opening_event testBuild se e16).level = Level.debug ∧
    (handle_server_closed_event testBuild se e17).level = Level.debug ∧
    (handle_topology_description_changed_event testBuild se e18).level =
      Level.debug ∧
    (handle_topology_opening_event testBuild se e19).level = Level.debug ∧
    (handle_topology_closed_event testBuild se e20).level = Level.debug ∧
    (handle_server_heartbeat_started_event testBuild se e21).level =
      Level.debug ∧
    (handle_server_heartbeat_succeeded_event testBuild se e22).level =
      Level.debug ∧
    (handle_server_heartbeat_failed_event testBuild se e23).level =
      Level.debug := by
  and_intros <;> rfl

/-- C4: the `failure` field of a command-failed record is omitted exactly
when the error kind is Redacted, and otherwise carries the Display
rendering of the error. -/
theorem command_failed_redaction (testBuild : Bool)
    (self : CommandTracingEventEmitter) (event : CommandFailedEvent) :
    (event.failure.kind = ErrorKind.redacted →
      lookupField (handle_command_failed_event testBuild self event).fields
        "failure" = none) ∧
    (event.failure.kind ≠ ErrorKind.redacted →
      lookupField (handle_command_failed_event testBuild self event).fields
        "failure" = some (FieldValue.str event.failure.display)) := by
  obtain ⟨⟨k, d⟩, cn, rid, ⟨cno, srvid, ⟨host, port⟩⟩, sid, dur⟩ := event
  obtain ⟨mx, cid⟩ := self
  constructor
  · intro h
    simp only at h
    subst h
    cases testBuild <;> cases cid <;> cases srvid <;> cases port <;>
      cases sid <;>
      simp [handle_command_failed_event, clientIdFields, optField,
        lookupField, lookupField_append]
  · intro h
    simp only at h
    have hm : (match k with
        | ErrorKind.redacted => (none : Option ByteStr)
        | _ => some
            (Error.tracing_representation { kind := k, display := d })) =
        some d := by
      cases k
      · exact absurd rfl h
      all_goals rfl
    cases testBuild <;> cases cid <;> cases srvid <;> cases port <;>
      cases sid <;>
      simp [handle_command_failed_event, clientIdFields, optField,
        lookupField, lookupField_append, hm, Error.tracing_representation]

/-- Witness for C4: a redacted authentication failure omits the field, an
input-output failure carries its display text. -/
theorem command_failed_redaction_witness :
    lookupField (handle_command_failed_event true
        { max_document_length_bytes := 1000, client_id := none }
        { failure := { kind := ErrorKind.redacted, display := [97] }
          command_name := [], request_id := 1
          connection := { id := 0, server_id := none
                          address := { host := [], port := none } }
          service_id := none, duration_millis := 3 }).fields "failure" =
      none ∧
    lookupField (handle_command_failed_event true
        { max_document_length_bytes := 1000, client_id := none }
        { failure := { kind := ErrorKind.io, display := [97] }
          command_name := [], request_id := 1
          connection := { id := 0, server_id := none
                          address := { host := [], port := none } }
          service_id := none, duration_millis := 3 }).fields "failure" =
      some (FieldValue.str [97]) :=
  ⟨(command_failed_redaction true
      { max_document_length_bytes := 1000, client_id := none }
      { failure := { kind := ErrorKind.redacted, display := [97] }
        command_name := [], request_id := 1
        connection := { id := 0, server_id := none
                        address := { host := [], port := none } }
        service_id := none, duration_millis := 3 }).1 rfl,
   (command_failed_redaction true
      { max_document_length_bytes := 1000, client_id := none }
      { failure := { kind := ErrorKind.io, display := [97] }
        command_name := [], request_id := 1
        connection := { id := 0, server_id := none
                        address := { host := [], port := none } }
        service_id := none, duration_millis := 3 }).2 (by decide)⟩

/-- C7 as stated fails on the code: the command-succeeded record does not
contain the `database_name` field of the started schema, and its
`duration_ms` value is a u128 (recorded via `record_u128`), not a u64. -/
theorem command_succeeded_fields_counterexample :
    lookupField (handle_command_succeeded_event true
        { max_document_length_bytes := 1000, client_id := none }
        sampleSucceededEvent).fields "database_name" = none ∧
    lookupField (handle_command_succeeded_event true
        { max_document_length_bytes := 1000, client_id := none }
        sampleSucceededEvent).fields "duration_ms" =
      some (FieldValue.u128 5) ∧
    FieldValue.u128 5 ≠ FieldValue.u64 5 := by
  refine ⟨rfl, rfl, by decide⟩

/-- C7 amended: the command-succeeded field set equals the started schema
with `command` replaced by `reply`, with `database_name` additionally
removed, plus `duration_ms` appended (under the same test-build client-id
rule); and the `duration_ms` value is carried as a u128, the width of
`Duration::as_millis`, not as a u64. -/
theorem command_succeeded_fields (testBuild : Bool)
    (self : CommandTracingEventEmitter) (s : CommandSucceededEvent)
    (t : CommandStartedEvent)
    (hconn : t.connection = s.connection)
    (hsid : t.service_id = s.service_id) :
    (handle_command_succeeded_event testBuild self s).fields.map Prod.fst =
      ((((handle_command_started_event testBuild self t).fields.map
          Prod.fst).replace "command" "reply").erase "database_name") ++
        ["duration_ms"] ∧
    lookupField (handle_command_succeeded_event testBuild self s).fields
      "duration_ms" = some (FieldValue.u128 s.duration_millis) ∧
    lookupField (handle_command_succeeded_event testBuild self s).fields
      "database_name" = none := by
  obtain ⟨reply, cn, rid, conn, sid, dur⟩ := s
  obtain ⟨cmd, db, cnt, ridt, connt, sidt⟩ := t
  simp only at hconn hsid
  rw [hconn, hsid]
  obtain ⟨mx, cid⟩ := self
  obtain ⟨cno, srvid, hostport⟩ := conn
  obtain ⟨host, port⟩ := hostport
  cases testBuild <;> cases cid <;> cases srvid <;> cases port <;>
    cases sid <;>
    exact ⟨rfl, rfl, rfl⟩

/-- Witness for C7 at the concrete sample events. -/
theorem command_succeeded_fields_witness :
    (handle_command_succeeded_event true
        { max_document_length_bytes := 1000, client_id := none }
        sampleSucceededEvent).fields.map Prod.fst =
      ((((handle_command_started_event true
            { max_document_length_bytes := 1000, client_id := none }
            sampleStartedEvent).fields.map Prod.fst).replace "command"
          "reply").erase "database_name") ++ ["duration_ms"] ∧
    lookupField (handle_command_succeeded_event true
        { max_document_length_bytes := 1000, client_id := none }
        sampleSucceededEvent).fields "duration_ms" =
      some (FieldValue.u128 sampleSucceededEvent.duration_millis) ∧
    lookupField (handle_command_succeeded_event true
        { max_document_length_bytes := 1000, client_id := none }
        sampleSucceededEvent).fields "database_name" = none :=
  command_succeeded_fields true
    { max_document_length_bytes := 1000, client_id := none }
    sampleSucceededEvent sampleStartedEvent rfl rfl

theorem Level.ord_max_assoc (a b c : Level) :
    Level.ord_max (Level.ord_max a b) c =
      Level.ord_max a (Level.ord_max b c) := by
  cases a <;> cases b <;> cases c <;> rfl

theorem optMax_none_right (x : Option Level) : optMax x none = x := by
  cases x <;> rfl

theorem optMax_assoc (x y z : Option Level) :
    optMax (optMax x y) z = optMax x (optMax y z) := by
  cases x <;> cases y <;> cases z <;>
    simp [optMax, Level.ord_max_assoc]

theorem maxLevelList_cons (l : Level) (ls : List Level) :
    maxLevelList (l :: ls) = optMax (some l) (maxLevelList ls) := by
  cases h : maxLevelList ls <;> simp [maxLevelList, optMax, h]

theorem maxLevelList_append (xs ys : List Level) :
    maxLevelList (xs ++ ys) = optMax (maxLevelList xs) (maxLevelList ys) := by
  induction xs with
  | nil => simp [maxLevelList, optMax]
  | cons l ls ih =>
    rw [List.cons_append, maxLevelList_cons, ih, maxLevelList_cons,
      optMax_assoc]

theorem lookupLevel_updateMax_same (m : List (String × Level)) (k : String)
    (v : Level) :
    lookupLevel (updateMax m k v) k = optMax (lookupLevel m k) (some v) := by
  induction m with
  | nil => simp [updateMax, lookupLevel, optMax]
  | cons p rest ih =>
    obtain ⟨k2, v2⟩ := p
    by_cases h : k2 = k
    · subst h
      simp [updateMax, lookupLevel, optMax]
    · simp [updateMax, lookupLevel, h, ih]

theorem lookupLevel_updateMax_ne (m : List (String × Level)) (k t : String)
    (v : Level) (h : k ≠ t) :
    lookupLevel (updateMax m k v) t = lookupLevel m t := by
  induction m with
  | nil => simp [updateMax, lookupLevel, h]
  | cons p rest ih =>
    obtain ⟨k2, v2⟩ := p
    by_cases h2 : k2 = k
    · subst h2
      simp [updateMax, lookupLevel, h]
    · by_cases h3 : k2 = t
      · simp [updateMax, lookupLevel, h2, h3, Ne.symm h]
      · simp [updateMax, lookupLevel, h2, h3, ih]

theorem lookupLevel_fold_pairs (ps : List (String × Level)) (t : String) :
    ∀ m, lookupLevel (ps.foldl (fun m p => updateMax m p.1 p.2) m) t =
      optMax (lookupLevel m t)
        (maxLevelList ((ps.filter (fun p => p.1 == t)).map
          (fun p => p.2))) := by
  induction ps with
  | nil => intro m; simp [maxLevelList, optMax_none_right]
  | cons p ps ih =>
    intro m
    obtain ⟨k, v⟩ := p
    by_cases h : k = t
    · subst h
      simp only [List.foldl_cons, List.filter_cons, beq_self_eq_true,
        if_true, List.map_cons, ih, lookupLevel_updateMax_same,
        maxLevelList_cons, optMax_assoc]
    · have hf : List.filter (fun p => p.1 == t) ((k, v) :: ps) =
          List.filter (fun p => p.1 == t) ps := by
        simp [List.filter_cons, h]
      rw [hf, List.foldl_cons, ih, lookupLevel_updateMax_ne _ _ _ _ h]

theorem lookupLevel_fold_entities (es : List TestFileEntity) (t : String) :
    ∀ m, lookupLevel (es.foldl update_merged_levels m) t =
      optMax (lookupLevel m t)
        (maxLevelList (es.bind (entity_declared t))) := by
  induction es with
  | nil => intro m; simp [maxLevelList, optMax_none_right]
  | cons e es ih =>
    intro m
    have hstep : lookupLevel (update_merged_levels m e) t =
        optMax (lookupLevel m t) (maxLevelList (entity_declared t e)) := by
      cases e with
      | client c =>
        cases hmsg : c.observe_log_messages with
        | none =>
          simp [update_merged_levels, entity_declared, hmsg, maxLevelList,
            optMax_none_right]
        | some ps =>
          simp [update_merged_levels, entity_declared, hmsg,
            lookupLevel_fold_pairs]
      | database =>
        simp [update_merged_levels, entity_declared, maxLevelList,
          optMax_none_right]
      | collection =>
        simp [update_merged_levels, entity_declared, maxLevelList,
          optMax_none_right]
      | session =>
        simp [update_merged_levels, entity_declared, maxLevelList,
          optMax_none_right]
      | bucket =>
        simp [update_merged_levels, entity_declared, maxLevelList,
          optMax_none_right]
    simp only [List.foldl_cons, ih, hstep, List.cons_bind,
      maxLevelList_append, optMax_assoc]

theorem lookupLevel_fold_ops (ops : List Operation) (t : String) :
    ∀ m, lookupLevel
        (ops.foldl (fun m o => o.entities.foldl update_merged_levels m) m)
        t =
      optMax (lookupLevel m t)
        (maxLevelList (ops.bind fun o =>
          o.entities.bind (entity_declared t))) := by
  induction ops with
  | nil => intro m; simp [maxLevelList, optMax_none_right]
  | cons o ops ih =>
    intro m
    simp only [List.foldl_cons, ih, lookupLevel_fold_entities,
      List.cons_bind, maxLevelList_append, optMax_assoc]

theorem lookupLevel_fold_tests (tests : List Test) (t : String) :
    ∀ m, lookupLevel
        (tests.foldl
          (fun m test =>
            (test.operations.filter
                (fun o => o.name == "createEntities")).foldl
              (fun m o => o.entities.foldl update_merged_levels m) m)
          m) t =
      optMax (lookupLevel m t)
        (maxLevelList (tests.bind fun test =>
          (test.operations.filter
              (fun o => o.name == "createEntities")).bind
            fun o => o.entities.bind (entity_declared t))) := by
  induction tests with
  | nil => intro m; simp [maxLevelList, optMax_none_right]
  | cons test tests ih =>
    intro m
    simp only [List.foldl_cons, ih, lookupLevel_fold_ops, List.cons_bind,
      maxLevelList_append, optMax_assoc]

/-- C5: the merged map of `max_verbosity_levels_from_test_file` holds, at
every component `t`, exactly the maximum of the levels declared for `t`
over all client entities the traversal visits (createEntities operations of
every test plus the top-level create_entities list; non-client entities
declare nothing), and is empty at components nobody declares; the pairwise
merge realizes the maximum on the verbosity axis. -/
theorem max_verbosity_levels_spec (f : TestFile) (t : String) :
    lookupLevel (max_verbosity_levels_from_test_file f) t =
      maxLevelList (declared_levels f t) ∧
    ∀ a b : Level,
      (Level.ord_max a b).verbosity = max a.verbosity b.verbosity := by
  constructor
  · obtain ⟨tests, create_entities⟩ := f
    cases create_entities with
    | none =>
      simp only [max_verbosity_levels_from_test_file, declared_levels]
      rw [lookupLevel_fold_tests]
      simp [lookupLevel, optMax, maxLevelList, Option.getD]
    | some es =>
      simp only [max_verbosity_levels_from_test_file, declared_levels]
      rw [lookupLevel_fold_entities, lookupLevel_fold_tests]
      simp only [lookupLevel, optMax, Option.getD, maxLevelList_append]
  · intro a b
    cases a <;> cases b <;> rfl

/-- Non-matching events are skipped by the loop without changing the
outcome. -/
theorem wait_for_event_skip (filter : TracingEventRecord → Bool) :
    ∀ pre, (∀ r ∈ pre, ∃ e, r = RecvResult.ok e ∧ filter e = false) →
      ∀ tail, wait_for_event filter (pre ++ tail) =
        wait_for_event filter tail := by
  intro pre
  induction pre with
  | nil => intro _ tail; rfl
  | cons r pre ih =>
    intro h tail
    obtain ⟨e, rfl, hf⟩ := h r (List.mem_cons_self r pre)
    rw [List.cons_append]
    simp only [wait_for_event, hf, if_false]
    exact ih (fun r hr => h r (List.mem_cons_of_mem _ hr)) tail

/-- C6: when the receiver reports a lagged error, `wait_for_event` panics
with a message containing the exact number of skipped events; it neither
silently drops them nor returns a value or absence. -/
theorem wait_for_event_lagged (filter : TracingEventRecord → Bool)
    (pre : List RecvResult) (n : Nat) (rest : List RecvResult)
    (hpre : ∀ r ∈ pre, ∃ e, r = RecvResult.ok e ∧ filter e = false) :
    wait_for_event filter (pre ++ RecvResult.lagged n :: rest) =
      WaitResult.panic
        ("receiver lagged and skipped " ++ toString n ++ " events") ∧
    (∀ e, wait_for_event filter (pre ++ RecvResult.lagged n :: rest) ≠
      WaitResult.found e) ∧
    wait_for_event filter (pre ++ RecvResult.lagged n :: rest) ≠
      WaitResult.absent := by
  have key : wait_for_event filter (pre ++ RecvResult.lagged n :: rest) =
      WaitResult.panic
        ("receiver lagged and skipped " ++ toString n ++ " events") := by
    rw [wait_for_event_skip filter pre hpre]
    rfl
  refine ⟨key, ?_, ?_⟩
  · intro e
    rw [key]
    intro hc
    exact WaitResult.noConfusion hc
  · rw [key]
    intro hc
    exact WaitResult.noConfusion hc

/-- Witness for C6: an empty prefix and a lag of 3 skipped events. -/
theorem wait_for_event_lagged_witness :
    wait_for_event (fun _ => false)
        ([] ++ RecvResult.lagged 3 :: []) =
      WaitResult.panic
        ("receiver lagged and skipped " ++ toString 3 ++ " events") ∧
    (∀ e, wait_for_event (fun _ => false)
        ([] ++ RecvResult.lagged 3 :: []) ≠ WaitResult.found e) ∧
    wait_for_event (fun _ => false)
        ([] ++ RecvResult.lagged 3 :: []) ≠ WaitResult.absent :=
  wait_for_event_lagged (fun _ => false) [] 3 []
    (fun r hr => absurd hr (List.not_mem_nil r))

/-- C10: every checkout emits checkout-started first, followed by exactly
one further event: checked-out when the result is Ok, or checkout-failed
with reason ConnectionError when the result is Err; no checkout-failed
event with reason Timeout is emitted on this path. -/
theorem check_out_events (address : ServerAddress)
    (response : ConnectionRequestResult) :
    (ConnectionPool.check_out address response).1.head? =
      some (CmapEvent.connectionCheckoutStarted { address := address }) ∧
    (ConnectionPool.check_out address response).1.length = 2 ∧
    (∀ c, (ConnectionPool.check_out address response).2 = Except.ok c →
      (ConnectionPool.check_out address response).1 =
        [CmapEvent.connectionCheckoutStarted { address := address },
         CmapEvent.connectionCheckedOut c.checked_out_event]) ∧
    (∀ e, (ConnectionPool.check_out address response).2 = Except.error e →
      (ConnectionPool.check_out address response).1 =
        [CmapEvent.connectionCheckoutStarted { address := address },
         CmapEvent.connectionCheckoutFailed
           { address := address
             reason := ConnectionCheckoutFailedReason.connectionError }]) ∧
    (∀ f, CmapEvent.connectionCheckoutFailed f ∈
        (ConnectionPool.check_out address response).1 →
      f.reason ≠ ConnectionCheckoutFailedReason.timeout) := by
  rcases response with c | outcome | e
  · refine ⟨rfl, rfl, ?_, ?_, ?_⟩
    · intro c0 h
      simp only [ConnectionPool.check_out, Except.ok.injEq] at h ⊢
      rw [h]
    · intro e0 h
      exact Except.noConfusion h
    · intro f hf
      simp only [ConnectionPool.check_out, List.mem_cons,
        List.not_mem_nil, or_false] at hf
      rcases hf with hf | hf <;> exact CmapEvent.noConfusion hf
  · rcases outcome with e0 | c0
    · refine ⟨rfl, rfl, ?_, ?_, ?_⟩
      · intro c1 h
        exact Except.noConfusion h
      · intro e1 h
        rfl
      · intro f hf
        simp only [ConnectionPool.check_out, List.mem_cons,
          List.not_mem_nil, or_false] at hf
        rcases hf with hf | hf
        · exact CmapEvent.noConfusion hf
        · cases hf
          intro hr
          exact ConnectionCheckoutFailedReason.noConfusion hr
    · refine ⟨rfl, rfl, ?_, ?_, ?_⟩
      · intro c1 h
        simp only [ConnectionPool.check_out, Except.ok.injEq] at h ⊢
        rw [h]
      · intro e1 h
        exact Except.noConfusion h
      · intro f hf
        simp only [ConnectionPool.check_out, List.mem_cons,
          List.not_mem_nil, or_false] at hf
        rcases hf with hf | hf <;> exact CmapEvent.noConfusion hf
  · refine ⟨rfl, rfl, ?_, ?_, ?_⟩
    · intro c1 h
      exact Except.noConfusion h
    · intro e1 h
      rfl
    · intro f hf
      simp only [ConnectionPool.check_out, List.mem_cons,
        List.not_mem_nil, or_false] at hf
      rcases hf with hf | hf
      · exact CmapEvent.noConfusion hf
      · cases hf
        intro hr
        exact ConnectionCheckoutFailedReason.noConfusion hr

/-- Witness for C10: a pooled connection yields started plus checked-out;
a cleared pool yields started plus checkout-failed with ConnectionError. -/
theorem check_out_events_witness :
    (ConnectionPool.check_out { host := [], port := none }
        (ConnectionRequestResult.pooled
          { id := 0, address := { host := [], port := none } })).1 =
      [CmapEvent.connectionCheckoutStarted
         { address := { host := [], port := none } },
       CmapEvent.connectionCheckedOut
         (Connection.checked_out_event
           { id := 0, address := { host := [], port := none } })] ∧
    (ConnectionPool.check_out { host := [], port := none }
        (ConnectionRequestResult.poolCleared
          { kind := ErrorKind.io, display := [] })).1 =
      [CmapEvent.connectionCheckoutStarted
         { address := { host := [], port := none } },
       CmapEvent.connectionCheckoutFailed
         { address := { host := [], port := none }
           reason := ConnectionCheckoutFailedReason.connectionError }] :=
  ⟨(check_out_events { host := [], port := none }
      (ConnectionRequestResult.pooled
        { id := 0, address := { host := [], port := none } })).2.2.1
      { id := 0, address := { host := [], port := none } } rfl,
   (check_out_events { host := [], port := none }
      (ConnectionRequestResult.poolCleared
        { kind := ErrorKind.io, display := [] })).2.2.2.1
      (Error.pool_cleared_error { host := [], port := none }
        { kind := ErrorKind.io, display := [] }) rfl⟩
